import Mathlib

/-!
Verification of the smartmontools-go core subsystems against their
specification.  The definitions below are a shallow embedding of the Go code
in `smartmontools.go` (device-type resolution with the drivedb knowledge
base, the self-test poll loop) and, where the repo provides only tests for a
component, a model built from the specification (the message deduplication
cache).  Machine integers are modelled as `Nat`/`Int` (the Go values involved
never overflow), byte strings as `String`/`List Char`, and the external
`smartctl` process as an oracle function from argument lists to command
results.
-/

set_option maxRecDepth 10000

namespace Smart

/-! ### ASCII string primitives

The Go code uses `strings.Contains`, `strings.ToLower`, `strings.ToUpper`,
`strings.TrimSpace`, `strings.Split` and `strings.HasPrefix`.  They are
re-implemented here on `List Char`; the inputs handled by this library
(smartctl messages, drivedb records, test-type names) are ASCII, so the
ASCII-only case conversions coincide with Go's Unicode ones on all inputs
that reach them. -/

/-- Go `\s` whitespace class (space, tab, newline, carriage return,
vertical tab, form feed), used by `strings.TrimSpace` and the `\s` regex
escapes in the loader. -/
def isSpaceChar (c : Char) : Bool :=
  c = ' ' || c = '\t' || c = '\n' || c = '\r' || c = Char.ofNat 11 || c = Char.ofNat 12

/-- One lowercase step of Go `strings.ToLower`, ASCII range. -/
def charLower (c : Char) : Char :=
  if 65 ≤ c.toNat ∧ c.toNat ≤ 90 then Char.ofNat (c.toNat + 32) else c

/-- One uppercase step of Go `strings.ToUpper`, ASCII range. -/
def charUpper (c : Char) : Char :=
  if 97 ≤ c.toNat ∧ c.toNat ≤ 122 then Char.ofNat (c.toNat - 32) else c

/-- Go `strings.ToLower` (ASCII). -/
def toLowerStr (s : String) : String :=
  String.mk (s.data.map charLower)

/-- Membership test for a substring: `containsAux p s = true` iff `p` occurs
as a contiguous sublist of `s`.  Mirrors Go `strings.Contains`. -/
def containsAux (p : List Char) : List Char → Bool
  | [] => p.isEmpty
  | c :: t => p.isPrefixOf (c :: t) || containsAux p t

/-- Go `strings.Contains s pat`. -/
def strContains (s pat : String) : Bool :=
  containsAux pat.data s.data

/-- Go `strings.TrimSpace` on a list of characters. -/
def trimChars (l : List Char) : List Char :=
  ((l.dropWhile isSpaceChar).reverse.dropWhile isSpaceChar).reverse

/-- Go `strings.Split s sep` for a single-character separator. -/
def splitOnChar (sep : Char) : List Char → List (List Char)
  | [] => [[]]
  | c :: rest =>
    if c = sep then [] :: splitOnChar sep rest
    else
      match splitOnChar sep rest with
      | [] => [[c]]
      | l :: ls => (c :: l) :: ls

/-! ### Message deduplication cache (spec-modelled)

Modelled from the spec: the Message Deduplicator (`cache.go`) is not among
the provided sources — only its tests (`TestMessageCacheShouldLog`,
`TestMessageCacheTTLValues`, `TestMessageCacheSkipsAttributeCheckWarning`)
are.  Per spec section 4.4: `shouldLog(text, severity)` returns `true` and
records the sighting iff no unexpired entry exists for `text`'s content
hash; severity fixes the TTL at first sighting (information longest, warning
medium, error shortest, unrecognized a default); one designated benign
advisory message is always suppressed and never recorded.  The content hash
is modelled by the text itself (the tests require only that equal texts
collide and the hash is deterministic), and wall-clock time by an explicit
`now : Nat` parameter in seconds. -/

/-- Modelled from the spec: TTL in seconds for informational messages
(longest of the three severity classes). -/
def msgCacheTTLInformation : Nat := 3600

/-- Modelled from the spec: TTL in seconds for warning messages (medium). -/
def msgCacheTTLWarning : Nat := 1800

/-- Modelled from the spec: TTL in seconds for error messages (shortest, so
operators see repeated errors sooner). -/
def msgCacheTTLError : Nat := 300

/-- Modelled from the spec: fallback TTL in seconds for unrecognized
severities. -/
def msgCacheTTLDefault : Nat := 600

/-- Modelled from the spec: TTL selection by the severity string of the
first sighting. -/
def ttlForSeverity (severity : String) : Nat :=
  if severity = "information" then msgCacheTTLInformation
  else if severity = "warning" then msgCacheTTLWarning
  else if severity = "error" then msgCacheTTLError
  else msgCacheTTLDefault

/-- Modelled from the spec: the single designated benign advisory message
that is always suppressed (named in
`TestMessageCacheSkipsAttributeCheckWarning`). -/
def skippedAdvisoryMessage : String :=
  "Warning: This result is based on an Attribute check."

/-- Modelled from the spec: the message cache is an association from message
text (standing for its content hash) to the absolute expiry time of the
recorded sighting. -/
abbrev MessageCache : Type := List (String × Nat)

/-- Lookup of a message's recorded expiry. -/
def msgLookup (mc : MessageCache) (text : String) : Option Nat :=
  (List.find? (fun p => p.1 == text) mc).map (fun p => p.2)

/-- Modelled from the spec: `shouldLog(text, severity)` at time `now`.
Returns the decision and the updated cache.  The designated advisory is
suppressed unconditionally and never recorded; otherwise the call returns
`true` and records `now + ttl(severity)` iff no unexpired entry exists for
`text` (an absent entry and an expired entry are treated alike). -/
def shouldLog (mc : MessageCache) (text severity : String) (now : Nat) :
    Bool × MessageCache :=
  if text = skippedAdvisoryMessage then (false, mc)
  else
    match msgLookup mc text with
    | some expiresAt =>
      if now < expiresAt then (false, mc)
      else (true, (text, now + ttlForSeverity severity) :: mc)
    | none => (true, (text, now + ttlForSeverity severity) :: mc)

/-! ### Data model (`smartmontools.go` struct types)

Only the fields that influence the control flow of the embedded functions
are carried; plain data fields (model name, serial number, temperatures,
capacity, ...) are threaded through the Go code unchanged and are omitted.
Pointer-typed fields become `Option`, nested structs whose mere presence is
tested (`NvmeSmartHealth`, `NvmeControllerCapabilities`) become `Bool`
presence flags. -/

/-- `Device` struct: name and type of a storage device. -/
structure Device where
  name : String
  type : String
deriving DecidableEq

/-- `Message` struct: one smartctl diagnostic message. -/
structure Message where
  string : String
  severity : String
deriving DecidableEq

/-- `SmartctlInfo` struct: smartctl metadata (messages, exit status). -/
structure SmartctlInfo where
  messages : List Message
  exitStatus : Int
deriving DecidableEq

/-- `Raw` struct: raw value of a SMART attribute. -/
structure Raw where
  value : Int
  string : String
deriving DecidableEq

/-- `SmartAttribute` struct: a single SMART attribute row. -/
structure SmartAttribute where
  id : Int
  name : String
  value : Int
  worst : Int
  thresh : Int
  raw : Raw
deriving DecidableEq

/-- `StatusField` struct: self-test status, either parsed from a bare JSON
string (only `string` set) or from the structured object form. -/
structure StatusField where
  value : Int
  string : String
  passed : Option Bool
deriving DecidableEq

/-- `PollingMinutes` struct: per-test-type polling minutes. -/
structure PollingMinutes where
  short : Int
  extended : Int
  conveyance : Int
deriving DecidableEq

/-- `SelfTest` struct: self-test status and polling minutes. -/
structure SelfTest where
  status : Option StatusField
  pollingMinutes : Option PollingMinutes
deriving DecidableEq

/-- `Capabilities` struct: SMART capability bits. -/
structure Capabilities where
  execOfflineImmediate : Bool
  selfTestsSupported : Bool
  conveyanceSelfTestSupported : Bool
deriving DecidableEq

/-- `AtaSmartData` struct: self-test block, capabilities, attribute table. -/
structure AtaSmartData where
  selfTest : Option SelfTest
  capabilities : Option Capabilities
  table : Option (List SmartAttribute)
deriving DecidableEq

/-- `SMARTInfo` struct (control-flow-relevant fields).
`hasNvmeSmartHealth` / `hasNvmeControllerCapabilities` record whether the
corresponding pointer fields are non-nil. -/
structure SMARTInfo where
  device : Device
  rotationRate : Option Int
  diskType : String
  ataSmartData : Option AtaSmartData
  hasNvmeSmartHealth : Bool
  hasNvmeControllerCapabilities : Bool
  smartctl : Option SmartctlInfo
deriving DecidableEq

/-- `SelfTestInfo` struct: available self-test types and their durations in
minutes as returned by `GetAvailableSelfTests`. -/
structure SelfTestInfo where
  available : List String
  durations : List (String × Int)
deriving DecidableEq

/-! ### Command execution boundary

`Commander.Command(...).Output()` returns output bytes and an error.  The
JSON layer is out of scope, so output bytes are abstracted to: empty output,
non-empty output that does not unmarshal to a `SMARTInfo`, or non-empty
output that unmarshals to one (a JSON document for a struct is never the
empty byte string). -/

/-- Abstracted output bytes of one smartctl invocation. -/
inductive RawOutput where
  | empty : RawOutput
  | invalid : RawOutput
  | valid : SMARTInfo → RawOutput
deriving DecidableEq

/-- Result of `cmd.Output()`: the output bytes and whether an error was
returned. -/
structure CmdResult where
  output : RawOutput
  err : Bool
deriving DecidableEq

/-! ### Device-type resolution (`GetSMARTInfo` and helpers) -/

/-- The device-type cache: device path (or drivedb `usb:` identifier) to
compatibility parameter.  The Go map with its RW-mutex is modelled as an
association list where the newest write shadows older ones. -/
abbrev DTCache : Type := List (String × String)

/-- `getCachedDeviceType`: read a cache entry. -/
def lookupDT (cache : DTCache) (key : String) : Option String :=
  (List.find? (fun p => p.1 == key) cache).map (fun p => p.2)

/-- Arguments of the first invocation when no device type is cached:
`smartctl -a -j <path>`. -/
def noCacheArgs (path : String) : List String := ["-a", "-j", path]

/-- Arguments when a device type `t` is used: `smartctl -d t -a -j <path>`. -/
def typedArgs (t path : String) : List String := ["-d", t, "-a", "-j", path]

/-- `isUnknownUSBBridge`: does any smartctl message contain the fixed
"Unknown USB bridge" failure signature? -/
def isUnknownUSBBridge (info : SMARTInfo) : Bool :=
  match info.smartctl with
  | none => false
  | some sc => sc.messages.any (fun m => strContains m.string "Unknown USB bridge")

/-- Hex-digit class `[0-9a-fA-F]` of the extraction regex. -/
def isHexDigit (c : Char) : Bool :=
  ('0' ≤ c && c ≤ '9') || ('a' ≤ c && c ≤ 'f') || ('A' ≤ c && c ≤ 'F')

/-- Parse `0x<hex+>:0x<hex+>` at the head of the list (the two capture
groups of the bridge-extraction regex); returns the two captured tokens. -/
def parseHexPairPlus (l : List Char) : Option (List Char × List Char) :=
  match l with
  | '0' :: 'x' :: rest =>
    let h1 := rest.takeWhile isHexDigit
    if h1.isEmpty then none
    else
      match rest.dropWhile isHexDigit with
      | ':' :: '0' :: 'x' :: rest2 =>
        let h2 := rest2.takeWhile isHexDigit
        if h2.isEmpty then none
        else some ('0' :: 'x' :: h1, '0' :: 'x' :: h2)
      | _ => none
  | _ => none

/-- The literal part of the extraction pattern
`Unknown USB bridge \[(0x[0-9a-fA-F]+):(0x[0-9a-fA-F]+)`. -/
def bridgeLit : List Char := "Unknown USB bridge [".data

/-- Scan a message for the bridge-extraction pattern; returns the captured
vendor and product tokens of the first match. -/
def scanBridge : List Char → Option (List Char × List Char)
  | [] => none
  | c :: rest =>
    if bridgeLit.isPrefixOf (c :: rest) then
      match parseHexPairPlus ((c :: rest).drop bridgeLit.length) with
      | some vp => some vp
      | none => scanBridge rest
    else scanBridge rest

/-- First message whose text matches the extraction pattern, formatted as
`usb:<vendor>:<product>` with lowercased hex. -/
def firstBridgeID : List Message → String
  | [] => ""
  | m :: rest =>
    match scanBridge m.string.data with
    | some (v, p) =>
      "usb:" ++ toLowerStr (String.mk v) ++ ":" ++ toLowerStr (String.mk p)
    | none => firstBridgeID rest

/-- `extractUSBBridgeID`: the `usb:0xVVVV:0xPPPP` identifier embedded in an
"Unknown USB bridge" message, or `""` if not found. -/
def extractUSBBridgeID (info : SMARTInfo) : String :=
  match info.smartctl with
  | none => ""
  | some sc => firstBridgeID sc.messages

/-- `determineDiskType`: classify the device as NVMe / SSD / HDD / Unknown
from rotation rate, device type string and SSD-specific attributes
(IDs 231, 233, 234). -/
def determineDiskType (info : SMARTInfo) : String :=
  if info.device.type = "nvme" ∨ info.hasNvmeSmartHealth ∨ info.hasNvmeControllerCapabilities then
    "NVMe"
  else
    match info.rotationRate with
    | some r => if r = 0 then "SSD" else "HDD"
    | none =>
      let dt := toLowerStr info.device.type
      if strContains dt "nvme" then "NVMe"
      else if strContains dt "sata" ∨ strContains dt "ata" ∨ strContains dt "sat" then
        (match info.ataSmartData with
        | some asd =>
          match asd.table with
          | some tbl =>
            if tbl.any (fun a => a.id = 231 ∨ a.id = 233 ∨ a.id = 234) then "SSD" else "Unknown"
          | none => "Unknown"
        | none => "Unknown")
      else "Unknown"

/-- Attach the computed `DiskType` as `GetSMARTInfo` does before
returning. -/
def withDiskType (info : SMARTInfo) : SMARTInfo :=
  { info with diskType := determineDiskType info }

/-- Errors `GetSMARTInfo` can return. -/
inductive GetError where
  | notSupported : GetError
  | execFailed : GetError
  | parseFailed : GetError
deriving DecidableEq

/-- Result of one `GetSMARTInfo` call: the returned info pointer (it can
accompany an error), the returned error, the updated device-type cache and
the argument lists of the smartctl invocations issued, in order. -/
structure GetOutcome where
  info : Option SMARTInfo
  error : Option GetError
  cache : DTCache
  trace : List (List String)
deriving DecidableEq

/-- Device type used for the bridge retry: the drivedb entry for the
extracted `usb:` identifier if present and non-empty, else the `sat`
default. -/
def resolveRetryType (cache : DTCache) (info : SMARTInfo) : String :=
  let id := extractUSBBridgeID info
  let dt :=
    if id ≠ "" then
      match lookupDT cache id with
      | some t => t
      | none => ""
    else ""
  if dt = "" then "sat" else dt

/-- Shared fall-through of `GetSMARTInfo`'s error branch: return the parsed
info, with a "SMART Not Supported" error iff the device name is empty. -/
def getFallback (info : SMARTInfo) (cache : DTCache) (tr : List (List String)) : GetOutcome :=
  if info.device.name ≠ "" then
    { info := some (withDiskType info), error := none, cache := cache, trace := tr }
  else
    { info := some (withDiskType info), error := some GetError.notSupported,
      cache := cache, trace := tr }

/-- `GetSMARTInfo` over an abstract commander `exec`: choose arguments from
the cache, run smartctl, and on failure with parseable output handle the
"Unknown USB bridge" signature with a single retry, caching the device type
only when the retry yields a non-empty device name. -/
def getSMARTInfo (exec : List String → CmdResult) (cache : DTCache) (path : String) :
    GetOutcome :=
  let cached := lookupDT cache path
  let args :=
    match cached with
    | some t => typedArgs t path
    | none => noCacheArgs path
  let r1 := exec args
  if r1.err then
    match r1.output with
    | RawOutput.valid info =>
      if isUnknownUSBBridge info = true ∧ cached = none then
        let dt := resolveRetryType cache info
        let rargs := typedArgs dt path
        let r2 := exec rargs
        if r2.err = false ∨ r2.output ≠ RawOutput.empty then
          match r2.output with
          | RawOutput.valid rinfo =>
            if rinfo.device.name ≠ "" then
              { info := some (withDiskType rinfo), error := none,
                cache := (path, dt) :: cache, trace := [args, rargs] }
            else getFallback info cache [args, rargs]
          | _ => getFallback info cache [args, rargs]
        else getFallback info cache [args, rargs]
      else getFallback info cache [args]
    | _ => { info := none, error := some GetError.execFailed, cache := cache, trace := [args] }
  else
    match r1.output with
    | RawOutput.valid info =>
      { info := some (withDiskType info), error := none, cache := cache, trace := [args] }
    | _ => { info := none, error := some GetError.parseFailed, cache := cache, trace := [args] }

/-! ### Self-test orchestration (`RunSelfTest`, `RunSelfTestWithProgress`)

The poll loop runs on a 5-second ticker with a `select` over the caller's
context and the ticker.  One loop iteration is driven by one observation:
the context being cancelled, the status query (`GetSMARTInfo`) failing, or
the status query returning a `SMARTInfo`.  A run of the loop is embedded as
a fold over a finite list of such observations; the loop of the Go code is
unbounded, so a run that exhausts its observation list is reported as still
`ongoing`. -/

/-- One poll-tick observation. -/
inductive TickObs where
  | cancel : TickObs
  | errq : TickObs
  | ok : SMARTInfo → TickObs
deriving DecidableEq

/-- How the poll loop (or its caller) ended. -/
inductive RunExit where
  | invalidType : RunExit
  | capsFailed : RunExit
  | notSupported : RunExit
  | notAvailable : RunExit
  | startFailed : RunExit
  | terminal : String → RunExit
  | timeout : Nat → RunExit
  | cancelled : RunExit
  | ongoing : RunExit
deriving DecidableEq

/-- The valid self-test types (`validTypes` map in `RunSelfTest` and
`RunSelfTestWithProgress`). -/
def validSelfTestTypes : List String := ["short", "long", "conveyance", "offline"]

/-- `RunSelfTest`: validate the test type, then issue `smartctl -t <type>
<path>`.  Returns the error and the trace of issued commands. -/
def runSelfTest (path testType : String) (startErr : Bool) :
    Option RunExit × List (List String) :=
  if validSelfTestTypes.contains testType then
    (if startErr then some RunExit.startFailed else none, [["-t", testType, path]])
  else (some RunExit.invalidType, [])

/-- Terminal-status detection of one tick: case-insensitive containment of
"completed" / "aborted" / "interrupted" in the self-test status string,
normalized to the message passed to the final callback. -/
def terminalMsg (info : SMARTInfo) : Option String :=
  match info.ataSmartData with
  | some asd =>
    match asd.selfTest with
    | some st =>
      match st.status with
      | some s =>
        let ls := toLowerStr s.string
        if strContains ls "completed" then some "Self-test completed"
        else if strContains ls "aborted" then some "Self-test aborted"
        else if strContains ls "interrupted" then some "Self-test interrupted"
        else none
      | none => none
    | none => none
  | none => none

/-- Elapsed-time heuristic of the poll loop:
`elapsed*100/(expectedMinutes*60)`, clamped to 95 so completion is not
signalled before the device confirms it. -/
def heuristicProgress (elapsed em : Nat) : Int :=
  let p := elapsed * 100 / (em * 60)
  Int.ofNat (if p > 95 then 95 else p)

/-- The attribute-231 progress source with the code's `-1` sentinel: the
first table row with ID 231 yields its (normalized) value capped at 100;
a missing table, a missing row — and, by the sentinel, a row whose capped
value is exactly `-1` — yield `-1`. -/
def attr231Sentinel (info : SMARTInfo) : Int :=
  match info.ataSmartData with
  | some asd =>
    match asd.table with
    | some tbl =>
      match tbl.find? (fun a => a.id == 231) with
      | some attr => if attr.value > 100 then 100 else attr.value
      | none => -1
    | none => -1
  | none => -1

/-- Progress reported by one non-terminal tick (lines 863-899 of
`RunSelfTestWithProgress`): the self-test-execution-status attribute
(ID 231) when the ATA self-test block is present and the attribute search
did not end at the `-1` sentinel, otherwise the elapsed-time heuristic. -/
def tickProgress (info : SMARTInfo) (elapsed em : Nat) : Int :=
  match info.ataSmartData with
  | some asd =>
    match asd.selfTest with
    | some _ =>
      let p0 := attr231Sentinel info
      if p0 = -1 then heuristicProgress elapsed em else p0
    | none => heuristicProgress elapsed em
  | none => heuristicProgress elapsed em

/-- Status message of one non-terminal tick. -/
def progressMsg (info : SMARTInfo) : String :=
  match info.ataSmartData with
  | some asd =>
    match asd.selfTest with
    | some st =>
      match st.status with
      | some s => "Self-test in progress (" ++ s.string ++ ")"
      | none => "Self-test in progress"
    | none => "Self-test in progress"
  | none => "Self-test in progress"

/-- The poll loop of `RunSelfTestWithProgress` over a list of tick
observations, starting from `elapsed` seconds.  Returns the callback
invocations `(progress, status)` in order, the exit condition and the final
elapsed counter.  A failing status query increments `elapsed` and skips the
rest of the tick — including the timeout check. -/
def pollSelfTest (em : Nat) : List TickObs → Nat → List (Int × String) × RunExit × Nat
  | [], e => ([], RunExit.ongoing, e)
  | TickObs.cancel :: _, e => ([], RunExit.cancelled, e)
  | TickObs.errq :: rest, e => pollSelfTest em rest (e + 5)
  | TickObs.ok info :: rest, e =>
    let e2 := e + 5
    match terminalMsg info with
    | some m => ([(100, m)], RunExit.terminal m, e2)
    | none =>
      let cb := (tickProgress info e2 em, progressMsg info)
      if e2 > em * 120 then ([cb], RunExit.timeout e2, e2)
      else
        let r := pollSelfTest em rest e2
        (cb :: r.1, r.2.1, r.2.2)

/-- Fixed per-type default duration in minutes (the `expectedMinutes`
literal map; a Go map read of an absent key yields the zero value). -/
def defaultMinutes (t : String) : Nat :=
  if t = "short" then 2
  else if t = "long" then 120
  else if t = "conveyance" then 5
  else if t = "offline" then 10
  else 0

/-- Expected duration in minutes: the capability-reported duration when
present and positive, else the per-type default. -/
def expectedMinutesFor (t : String) (durations : List (String × Int)) : Nat :=
  match List.find? (fun p => p.1 == t) durations with
  | some p => if p.2 > 0 then p.2.toNat else defaultMinutes t
  | none => defaultMinutes t

/-- `strings.ToUpper(string(testType[0])) + testType[1:]` — capitalize the
first character (only reached with a validated, hence non-empty, type). -/
def capFirst (s : String) : String :=
  match s.data with
  | [] => ""
  | c :: rest => String.mk (charUpper c :: rest)

/-- The capabilities query command of `GetAvailableSelfTests`. -/
def capsCmd (path : String) : List String := ["-c", "-j", path]

/-- Inputs of one `RunSelfTestWithProgress` call: the requested type, the
outcome of the capabilities query (`none` = `GetAvailableSelfTests`
errored), whether the start command fails, and the poll-tick
observations. -/
structure RunInput where
  testType : String
  caps : Option SelfTestInfo
  startErr : Bool
  ticks : List TickObs
deriving DecidableEq

/-- Result of one `RunSelfTestWithProgress` call: the callback invocations
in order, the exit condition, and the smartctl commands issued before the
poll loop (the loop's own status queries are part of the tick
observations). -/
structure RunOutput where
  callbacks : List (Int × String)
  exit : RunExit
  cmds : List (List String)
deriving DecidableEq

/-- `RunSelfTestWithProgress`: validate the type, query capabilities, check
availability, start the test, fire the initial callback, then poll. -/
def runSelfTestWithProgress (path : String) (inp : RunInput) : RunOutput :=
  if ¬ validSelfTestTypes.contains inp.testType then
    { callbacks := [], exit := RunExit.invalidType, cmds := [] }
  else
    match inp.caps with
    | none => { callbacks := [], exit := RunExit.capsFailed, cmds := [capsCmd path] }
    | some sti =>
      if sti.available = [] then
        { callbacks := [], exit := RunExit.notSupported, cmds := [capsCmd path] }
      else if ¬ sti.available.contains inp.testType then
        { callbacks := [], exit := RunExit.notAvailable, cmds := [capsCmd path] }
      else
        match runSelfTest path inp.testType inp.startErr with
        | (some _, tr) =>
          { callbacks := [], exit := RunExit.startFailed, cmds := capsCmd path :: tr }
        | (none, tr) =>
          let startCb : Int × String :=
            (0, capFirst inp.testType ++ " self-test started")
          let em := expectedMinutesFor inp.testType sti.durations
          let r := pollSelfTest em inp.ticks 0
          { callbacks := startCb :: r.1, exit := r.2.1, cmds := capsCmd path :: tr }

/-! ### Knowledge-base loader (`loadDrivedbAddendum` and helpers)

The Go loader drives three `regexp` patterns over the embedded `drivedb.h`
text.  Each pattern is embedded as a direct scanner over `List Char` with
the same leftmost, non-overlapping match semantics; scanners that jump past
a match use a fuel argument (one unit per examined position, so the length
of the input is always enough) to stay structurally recursive. -/

/-- Substring test of a pattern string inside a character list. -/
def containsTok (l : List Char) (p : String) : Bool :=
  containsAux p.data l

/-- `usbEntryPattern` = `\{\s*"USB:` — an opening brace followed by
whitespace and the literal `"USB:` somewhere in the line. -/
def matchUSBStart : List Char → Bool
  | [] => false
  | c :: rest =>
    (c = Char.ofNat 123 && "\"USB:".data.isPrefixOf (rest.dropWhile isSpaceChar))
      || matchUSBStart rest

/-- State machine for `quotedStringPattern` = `"([^"]*)"` with
`FindAllStringSubmatch`: the capture of each consecutive pair of quotes;
an unterminated final quote yields no further match. -/
def quotedFields : List Char → Option (List Char) → List String
  | [], _ => []
  | c :: rest, none =>
    if c = '"' then quotedFields rest (some []) else quotedFields rest none
  | c :: rest, some acc =>
    if c = '"' then String.mk acc.reverse :: quotedFields rest none
    else quotedFields rest (c :: acc)

/-- All quoted strings of a line. -/
def findQuoted (l : List Char) : List String := quotedFields l none

/-- `deviceTypePattern` = `-d\s+(\S+)`, first match: the token after `-d`
and at least one whitespace character. -/
def fdt : List Char → Option String
  | [] => none
  | c0 :: rest =>
    match c0, rest with
    | '-', 'd' :: c1 :: r2 =>
      if isSpaceChar c1 then
        let r := (c1 :: r2).dropWhile isSpaceChar
        let tok := r.takeWhile (fun ch => !(isSpaceChar ch))
        if tok.isEmpty then fdt rest else some (String.mk tok)
      else fdt rest
    | _, _ => fdt rest

/-- Drop any `,`-separated options of a device type (`"sat,12"` → `"sat"`). -/
def cutComma (s : String) : String :=
  if strContains s "," then String.mk (s.data.takeWhile (fun c => c ≠ ',')) else s

/-- Fueled scanner for `exactPattern` =
`(0x[0-9a-fA-F]{4}:0x[0-9a-fA-F]{4})`, all non-overlapping matches. -/
def exactScanF : Nat → List Char → List String
  | 0, _ => []
  | _ + 1, [] => []
  | fuel + 1, '0' :: 'x' :: a :: b :: c :: d :: ':' :: '0' :: 'x' :: e :: f :: g :: h2 :: rest =>
    if [a, b, c, d, e, f, g, h2].all isHexDigit then
      String.mk ['0', 'x', a, b, c, d, ':', '0', 'x', e, f, g, h2] :: exactScanF fuel rest
    else
      exactScanF fuel ('x' :: a :: b :: c :: d :: ':' :: '0' :: 'x' :: e :: f :: g :: h2 :: rest)
  | fuel + 1, _ :: rest => exactScanF fuel rest

/-- All matches of `exactPattern` in a model regexp. -/
def exactScan (l : List Char) : List String := exactScanF l.length l

/-- Fueled scanner for `regexPattern` =
`(0x[0-9a-fA-F]{4}):0x([0-9a-fA-F]{2})\(([^\)]+)\)`; yields the vendor
capture, the two-digit product prefix and the alternation body of each
non-overlapping match. -/
def altScanF : Nat → List Char → List (String × String × List Char)
  | 0, _ => []
  | _ + 1, [] => []
  | fuel + 1, '0' :: 'x' :: a :: b :: c :: d :: ':' :: '0' :: 'x' :: e :: f :: '(' :: rest =>
    if [a, b, c, d, e, f].all isHexDigit then
      let content := rest.takeWhile (fun ch => ch ≠ ')')
      match rest.dropWhile (fun ch => ch ≠ ')') with
      | ')' :: rem =>
        if content.isEmpty then
          altScanF fuel ('x' :: a :: b :: c :: d :: ':' :: '0' :: 'x' :: e :: f :: '(' :: rest)
        else
          (String.mk ['0', 'x', a, b, c, d], String.mk [e, f], content) :: altScanF fuel rem
      | _ =>
        altScanF fuel ('x' :: a :: b :: c :: d :: ':' :: '0' :: 'x' :: e :: f :: '(' :: rest)
    else
      altScanF fuel ('x' :: a :: b :: c :: d :: ':' :: '0' :: 'x' :: e :: f :: '(' :: rest)
  | fuel + 1, _ :: rest => altScanF fuel rest

/-- All matches of `regexPattern` in a model regexp. -/
def altScan (l : List Char) : List (String × String × List Char) := altScanF l.length l

/-- `\w` character class of `charClassPattern`. -/
def isWordChar (c : Char) : Bool :=
  ('0' ≤ c && c ≤ '9') || ('a' ≤ c && c ≤ 'z') || ('A' ≤ c && c ≤ 'Z') || c = '_'

/-- Go `len` (UTF-8 byte length) of a character list. -/
def utf8Len (l : List Char) : Nat := l.foldl (fun n c => n + c.utf8Size) 0

/-- The two length fallbacks of `expandProductIDPattern`: a two-byte
pattern completes the two-digit prefix, a four-byte pattern is a full
product ID; anything else expands to nothing. -/
def expandLenCases (vendor pre2 : String) (pattern : List Char) : List String :=
  if utf8Len pattern = 2 then [vendor ++ ":0x" ++ pre2 ++ String.mk pattern]
  else if utf8Len pattern = 4 then [vendor ++ ":0x" ++ String.mk pattern]
  else []

/-- `expandProductIDPattern`: expand one alternation part — a character
class like `7[789]` (anchored `^(\w)\[([^\]]+)\]$`) into one ID per class
character, else the length fallbacks. -/
def expandProductIDPattern (vendor pre2 : String) (pattern : List Char) : List String :=
  match pattern with
  | w :: '[' :: rest =>
    if isWordChar w then
      let content := rest.takeWhile (fun ch => ch ≠ ']')
      match rest.dropWhile (fun ch => ch ≠ ']') with
      | [']'] =>
        if content.isEmpty then expandLenCases vendor pre2 pattern
        else
          content.map (fun c => vendor ++ ":0x" ++ pre2 ++ String.mk [w] ++ String.mk [c])
      | _ => expandLenCases vendor pre2 pattern
    else expandLenCases vendor pre2 pattern
  | _ => expandLenCases vendor pre2 pattern

/-- `extractUSBIDs`: exact vendor:product matches followed by the expanded
alternation matches of a model regexp. -/
def extractUSBIDs (modelregexp : String) : List String :=
  let ids1 := exactScan modelregexp.data
  let ids2 :=
    (altScan modelregexp.data).foldl
      (fun acc m =>
        (splitOnChar '|' m.2.2).foldl
          (fun acc2 part => acc2 ++ expandProductIDPattern m.1 m.2.1 part) acc)
      []
  ids1 ++ ids2

/-- Process one complete drivedb entry: with at least the five expected
fields, a `USB:`-prefixed model family and a `-d` preset, insert one cache
record per extracted USB ID under the lowercased `usb:` key. -/
def processEntry (fields : List String) (cache : DTCache) : DTCache :=
  if fields.length ≥ 5 then
    let modelfamily := fields.getD 0 ""
    let modelregexp := fields.getD 1 ""
    let presets := fields.getD 4 ""
    if "USB:".data.isPrefixOf modelfamily.data then
      match fdt presets.data with
      | some dt0 =>
        let dt := cutComma dt0
        (extractUSBIDs modelregexp).foldl
          (fun acc id => ("usb:" ++ toLowerStr id, dt) :: acc) cache
      | none => cache
    else cache
  else cache

/-- The line loop of `loadDrivedbAddendum`: track whether the scan is
inside a USB entry, accumulate quoted fields, and process an entry when its
closing brace is seen. -/
def loadLoop : List (List Char) → Bool → List String → DTCache → DTCache
  | [], _, _, cache => cache
  | line0 :: rest, inUSB, fields, cache =>
    let line := trimChars line0
    let inUSB1 := if matchUSBStart line then true else inUSB
    let fields1 := if matchUSBStart line then [] else fields
    if inUSB1 then
      let fields2 := fields1 ++ findQuoted line
      if containsTok line "\x7d," || (containsTok line "\x7d" && !containsTok line "\x7b") then
        loadLoop rest false [] (processEntry fields2 cache)
      else loadLoop rest true fields2 cache
    else loadLoop rest inUSB1 fields1 cache

/-- `loadDrivedbAddendum` over an arbitrary database text: split into
lines and run the line loop on an empty cache. -/
def loadDrivedbAddendum (dbText : String) : DTCache :=
  loadLoop (splitOnChar '\n' dbText.data) false [] []

/-! ## Theorems -/

/-! ### C9: the designated advisory is never loggable -/

/-- C9: for the single designated benign advisory message, `shouldLog`
returns `false` on every call — at every severity, at every time, from every
cache state — and never records an entry for it (the cache is returned
unchanged). -/
theorem claim_C9_advisory_suppressed (mc : MessageCache) (severity : String) (now : Nat) :
    shouldLog mc skippedAdvisoryMessage severity now = (false, mc) := by
  simp [shouldLog]

/-! ### C8: shouldLog contract -/

/-- C8 counterexample: the claim quantifies over *every* message text, but
at the designated advisory text `shouldLog` returns `false` even though no
cache entry (unexpired or otherwise) exists for it, so "returns true iff no
unexpired entry exists" fails there. -/
theorem claim_C8_counterexample :
    msgLookup [] skippedAdvisoryMessage = none
    ∧ (shouldLog [] skippedAdvisoryMessage "warning" 0).1 = false
    ∧ (shouldLog [] skippedAdvisoryMessage "warning" 0).2 = [] := by
  refine ⟨rfl, ?_, ?_⟩ <;> simp [shouldLog]

/-- C8 (amended): for every message text *other than the designated
advisory*: `shouldLog` returns `true` iff every recorded entry for the text
is expired (an absent entry and an expired entry both yield `true`); a
`true` result records an entry expiring at `now` plus the TTL of the
severity seen now (so the first sighting's severity fixes the expiry); a
`false` result leaves the cache unchanged; a later sighting at any severity
while the entry is unexpired yields `false` and keeps the expiry; and the
TTLs order error < warning < information with unrecognized severities on
the default. -/
theorem claim_C8_shouldLog_amended (mc : MessageCache) (text severity : String)
    (now : Nat) (hne : text ≠ skippedAdvisoryMessage) :
    ((shouldLog mc text severity now).1 = true
        ↔ (∀ exp, msgLookup mc text = some exp → exp ≤ now))
    ∧ ((shouldLog mc text severity now).1 = true →
        (shouldLog mc text severity now).2 = (text, now + ttlForSeverity severity) :: mc)
    ∧ ((shouldLog mc text severity now).1 = false →
        (shouldLog mc text severity now).2 = mc)
    ∧ (∀ exp severity2, msgLookup mc text = some exp → now < exp →
        shouldLog mc text severity2 now = (false, mc))
    ∧ msgCacheTTLError < msgCacheTTLWarning
    ∧ msgCacheTTLWarning < msgCacheTTLInformation
    ∧ (severity ≠ "information" → severity ≠ "warning" → severity ≠ "error" →
        ttlForSeverity severity = msgCacheTTLDefault) := by
  refine ⟨?_, ?_, ?_, ?_, by decide, by decide, ?_⟩
  · constructor
    · intro h exp hexp
      simp only [shouldLog, if_neg hne, hexp] at h
      by_contra hlt
      simp [Nat.lt_of_not_le hlt] at h
    · intro h
      simp only [shouldLog, if_neg hne]
      cases hexp : msgLookup mc text with
      | none => simp
      | some exp =>
        have := h exp hexp
        simp [Nat.not_lt.mpr this]
  · intro h
    simp only [shouldLog, if_neg hne] at h ⊢
    cases hexp : msgLookup mc text with
    | none => simp
    | some exp =>
      simp only [hexp] at h ⊢
      by_cases hlt : now < exp
      · simp [hlt] at h
      · simp [hlt]
  · intro h
    simp only [shouldLog, if_neg hne] at h ⊢
    cases hexp : msgLookup mc text with
    | none => simp [hexp] at h
    | some exp =>
      simp only [hexp] at h ⊢
      by_cases hlt : now < exp
      · simp [hlt]
      · simp [hlt] at h
  · intro exp severity2 hexp hlt
    simp [shouldLog, if_neg hne, hexp, hlt]
  · intro h1 h2 h3
    simp [ttlForSeverity, h1, h2, h3]

/-- C8 witness: a fresh non-advisory error message is loggable. -/
theorem claim_C8_shouldLog_amended_witness :
    ("device failure imminent" : String) ≠ skippedAdvisoryMessage
    ∧ (shouldLog [] "device failure imminent" "error" 0).1 = true := by
  have hne : ("device failure imminent" : String) ≠ skippedAdvisoryMessage := by decide
  refine ⟨hne, ?_⟩
  exact (claim_C8_shouldLog_amended [] "device failure imminent" "error" 0 hne).1.2
    (by intro exp hexp; simp [msgLookup] at hexp)

/-! ### C10: failing status queries skip the timeout check -/

/-- C10: a failing status query increments elapsed time by the tick length
and skips the rest of the tick, including the timeout check.  Consequently a
run whose status queries all fail never returns a timeout no matter how much
time elapses (it is still ongoing after any number of failing ticks), and
ends only when the caller's context is cancelled. -/
theorem claim_C10_err_ticks_skip_timeout (em e n : Nat) (rest : List TickObs) :
    pollSelfTest em (List.replicate n TickObs.errq ++ rest) e
        = pollSelfTest em rest (e + 5 * n)
    ∧ pollSelfTest em (List.replicate n TickObs.errq) e
        = ([], RunExit.ongoing, e + 5 * n)
    ∧ pollSelfTest em (List.replicate n TickObs.errq ++ [TickObs.cancel]) e
        = ([], RunExit.cancelled, e + 5 * n) := by
  have key : ∀ (m : Nat) (e0 : Nat) (r : List TickObs),
      pollSelfTest em (List.replicate m TickObs.errq ++ r) e0
        = pollSelfTest em r (e0 + 5 * m) := by
    intro m
    induction m with
    | zero => intro e0 r; simp
    | succ k ih =>
      intro e0 r
      rw [List.replicate_succ, List.cons_append]
      show pollSelfTest em (List.replicate k TickObs.errq ++ r) (e0 + 5) = _
      rw [ih (e0 + 5) r]
      congr 1
      omega
  refine ⟨key n e rest, ?_, ?_⟩
  · have := key n e []
    simpa [pollSelfTest] using this
  · have := key n e [TickObs.cancel]
    simpa [pollSelfTest] using this

/-! ### C5: the timeout bound -/

/-- C5 counterexample: a run of 60 consecutive failing status queries
reaches elapsed = 300 s > 2×expected = 240 s for a short test yet the loop
has not terminated with a timeout error (and with a subsequent cancellation
it ends as cancelled, not timed out), refuting "if elapsed time exceeds 2×
the expected duration, the loop terminates with a timeout error". -/
theorem claim_C5_counterexample :
    pollSelfTest 2 (List.replicate 60 TickObs.errq) 0 = ([], RunExit.ongoing, 300)
    ∧ 300 > 2 * 120
    ∧ RunExit.ongoing ≠ RunExit.timeout 300
    ∧ (pollSelfTest 2 (List.replicate 60 TickObs.errq ++ [TickObs.cancel]) 0).2.1
        = RunExit.cancelled := by
  refine ⟨by decide, by decide, by decide, by decide⟩

/-- C5 (amended): on the first tick whose status query *succeeds* with a
non-terminal status and whose elapsed time exceeds `expectedMinutes*120`
seconds, the loop terminates with a timeout exit carrying that elapsed
time; the timeout exit is distinct from every device-reported terminal
exit, from cancellation, and from a start failure. -/
theorem claim_C5_timeout_amended (em e : Nat) (info : SMARTInfo) (rest : List TickObs)
    (hterm : terminalMsg info = none) (hover : e + 5 > em * 120) :
    pollSelfTest em (TickObs.ok info :: rest) e
        = ([(tickProgress info (e + 5) em, progressMsg info)], RunExit.timeout (e + 5), e + 5)
    ∧ (∀ m, RunExit.timeout (e + 5) ≠ RunExit.terminal m)
    ∧ RunExit.timeout (e + 5) ≠ RunExit.cancelled
    ∧ RunExit.timeout (e + 5) ≠ RunExit.startFailed := by
  refine ⟨?_, fun m => by simp, by simp, by simp⟩
  simp [pollSelfTest, hterm, hover]

/-- A status observation with no ATA self-test block (witness input for the
amended C5). -/
def c5wInfo : SMARTInfo :=
  { device := ⟨"/dev/sda", "sat"⟩, rotationRate := none, diskType := ""
    ataSmartData := none, hasNvmeSmartHealth := false
    hasNvmeControllerCapabilities := false, smartctl := none }

/-- C5 witness: a short test (expected 2 min) with a non-terminal
observation at elapsed 245 s > 240 s times out there. -/
theorem claim_C5_timeout_amended_witness :
    terminalMsg c5wInfo = none
    ∧ 240 + 5 > 2 * 120
    ∧ pollSelfTest 2 [TickObs.ok c5wInfo] 240
        = ([(95, "Self-test in progress")], RunExit.timeout 245, 245) := by
  have h := claim_C5_timeout_amended 2 240 c5wInfo [] (by decide) (by decide)
  exact ⟨by decide, by decide, by simpa using h.1⟩

/-! ### C6: test-type validation -/

/-- C6: for a test type outside {short, long, conveyance, offline} both
`RunSelfTest` and `RunSelfTestWithProgress` return the invalid-input error
with no command issued and no callback fired; for a valid test type the
device does not advertise, `RunSelfTestWithProgress` returns the
unsupported / not-available error after only the capabilities query — the
start command is never issued. -/
theorem claim_C6_validation (path : String) (inp : RunInput) (startErr : Bool) :
    (¬ validSelfTestTypes.contains inp.testType →
      runSelfTest path inp.testType startErr = (some RunExit.invalidType, [])
      ∧ runSelfTestWithProgress path inp
          = { callbacks := [], exit := RunExit.invalidType, cmds := [] })
    ∧ (∀ sti, validSelfTestTypes.contains inp.testType → inp.caps = some sti →
        ¬ sti.available.contains inp.testType →
        ((runSelfTestWithProgress path inp).exit = RunExit.notSupported
          ∨ (runSelfTestWithProgress path inp).exit = RunExit.notAvailable)
        ∧ (runSelfTestWithProgress path inp).cmds = [capsCmd path]
        ∧ (runSelfTestWithProgress path inp).callbacks = []) := by
  constructor
  · intro h
    have h2 : inp.testType ∉ validSelfTestTypes := by simpa using h
    constructor
    · simp [runSelfTest, h2]
    · simp [runSelfTestWithProgress, h2]
  · intro sti hv hcaps hnav
    have hv2 : inp.testType ∈ validSelfTestTypes := by simpa using hv
    have hnav2 : inp.testType ∉ sti.available := by simpa using hnav
    simp only [runSelfTestWithProgress, hcaps]
    by_cases he : sti.available = []
    · simp [he, hv2]
    · simp [he, hv2, hnav2]

/-- C6 witness: the type "quick" is rejected with no command, and a
conveyance test on a device advertising only short/long is reported
not-available after the capabilities query alone. -/
theorem claim_C6_validation_witness :
    (¬ validSelfTestTypes.contains "quick"
      ∧ runSelfTestWithProgress "/dev/sda"
          { testType := "quick", caps := some ⟨["short", "long"], []⟩,
            startErr := false, ticks := [] }
          = { callbacks := [], exit := RunExit.invalidType, cmds := [] })
    ∧ ((runSelfTestWithProgress "/dev/sda"
          { testType := "conveyance", caps := some ⟨["short", "long"], []⟩,
            startErr := false, ticks := [] }).exit = RunExit.notSupported
        ∨ (runSelfTestWithProgress "/dev/sda"
          { testType := "conveyance", caps := some ⟨["short", "long"], []⟩,
            startErr := false, ticks := [] }).exit = RunExit.notAvailable) := by
  constructor
  · exact ⟨by decide,
      (claim_C6_validation "/dev/sda"
        { testType := "quick", caps := some ⟨["short", "long"], []⟩,
          startErr := false, ticks := [] } false).1 (by decide) |>.2⟩
  · exact (claim_C6_validation "/dev/sda"
      { testType := "conveyance", caps := some ⟨["short", "long"], []⟩,
        startErr := false, ticks := [] } false).2 ⟨["short", "long"], []⟩
      (by decide) rfl (by decide) |>.1

/-! ### C3: progress priority on a non-terminal tick -/

/-- The tick progress as claim C3 states it.  Clause (a) of the claim (an
explicit remaining-percentage field) cannot apply: the parsed `StatusField`
of this code base carries no remaining-percentage field, so the claimed
priority starts at clause (b) — the raw value of attribute 231 capped at
100 — with clause (c), the clamped elapsed-time heuristic, as fallback. -/
def claimedC3Progress (info : SMARTInfo) (elapsed em : Nat) : Int :=
  match info.ataSmartData with
  | some asd =>
    match asd.table with
    | some tbl =>
      match tbl.find? (fun a => a.id == 231) with
      | some attr => if attr.raw.value > 100 then 100 else attr.raw.value
      | none => heuristicProgress elapsed em
    | none => heuristicProgress elapsed em
  | none => heuristicProgress elapsed em

/-- The tick progress as the amended claim states it: when the ATA
self-test block is present and the table's first ID-231 row has a
(normalized) `value` other than the `-1` sentinel, progress is that value
capped at 100; in every other case progress is
`elapsed*100/(expectedMinutes*60)` clamped to 95. -/
def amendedC3Progress (info : SMARTInfo) (elapsed em : Nat) : Int :=
  match info.ataSmartData with
  | some asd =>
    match asd.selfTest with
    | some _ =>
      match asd.table with
      | some tbl =>
        match tbl.find? (fun a => a.id == 231) with
        | some attr =>
          if attr.value = -1 then heuristicProgress elapsed em
          else if attr.value > 100 then 100 else attr.value
        | none => heuristicProgress elapsed em
      | none => heuristicProgress elapsed em
    | none => heuristicProgress elapsed em
  | none => heuristicProgress elapsed em

/-- The elapsed-time heuristic never exceeds its 95 clamp. -/
theorem heuristicProgress_le_95 (elapsed em : Nat) : heuristicProgress elapsed em ≤ 95 := by
  unfold heuristicProgress
  by_cases h : elapsed * 100 / (em * 60) > 95
  · simp [h]
  · simp only [h, if_false]
    exact Int.ofNat_le.mpr (Nat.not_lt.mp h)

/-- The attribute-231 progress source, sentinel included, never exceeds the
100 cap. -/
theorem attr231Sentinel_le_100 (info : SMARTInfo) : attr231Sentinel info ≤ 100 := by
  unfold attr231Sentinel
  cases hasd : info.ataSmartData with
  | none => norm_num
  | some asd =>
    simp only [hasd]
    cases htbl : asd.table with
    | none => norm_num
    | some tbl =>
      simp only [htbl]
      cases hfind : List.find? (fun a => a.id == 231) tbl with
      | none => norm_num
      | some attr =>
        simp only [hfind]
        split <;> omega

/-- Non-terminal observation whose 231 attribute has normalized value 2 and
raw value 7 (counterexample input for C3). -/
def c3xInfo : SMARTInfo :=
  { device := ⟨"/dev/sda", "sat"⟩, rotationRate := none, diskType := ""
    ataSmartData := some
      { selfTest := some
          { status := some ⟨249, "in progress", none⟩, pollingMinutes := none }
        capabilities := none
        table := some [⟨231, "Self-test execution status", 2, 0, 0, ⟨7, "7"⟩⟩] }
    hasNvmeSmartHealth := false, hasNvmeControllerCapabilities := false
    smartctl := none }

/-- C3 counterexample: with attribute 231 present, the code reports the
attribute's *normalized* value (2), not its raw value (7) as the claim's
clause (b) states. -/
theorem claim_C3_counterexample :
    tickProgress c3xInfo 5 2 = 2
    ∧ claimedC3Progress c3xInfo 5 2 = 7
    ∧ tickProgress c3xInfo 5 2 ≠ claimedC3Progress c3xInfo 5 2 := by
  refine ⟨by decide, by decide, by decide⟩

/-- C3 (amended): on every non-terminal tick the reported progress equals
the amended priority order (normalized attribute-231 value capped at 100,
with the `-1` sentinel treated as absent; otherwise the clamped heuristic);
whenever the attribute source is absent (sentinel `-1`) the progress never
exceeds 95; and the reported progress never exceeds 100. -/
theorem claim_C3_progress_amended (info : SMARTInfo) (elapsed em : Nat) :
    tickProgress info elapsed em = amendedC3Progress info elapsed em
    ∧ (attr231Sentinel info = -1 → tickProgress info elapsed em ≤ 95)
    ∧ tickProgress info elapsed em ≤ 100 := by
  have hle := heuristicProgress_le_95 elapsed em
  have hb : heuristicProgress elapsed em ≤ 100 := le_trans hle (by norm_num)
  refine ⟨?_, ?_, ?_⟩
  · cases hasd : info.ataSmartData with
    | none => simp [tickProgress, amendedC3Progress, hasd]
    | some asd =>
      cases hst : asd.selfTest with
      | none => simp [tickProgress, amendedC3Progress, attr231Sentinel, hasd, hst]
      | some st =>
        cases htbl : asd.table with
        | none => simp [tickProgress, amendedC3Progress, attr231Sentinel, hasd, hst, htbl]
        | some tbl =>
          cases hfind : tbl.find? (fun a => a.id == 231) with
          | none =>
            simp [tickProgress, amendedC3Progress, attr231Sentinel, hasd, hst, htbl, hfind]
          | some attr =>
            simp only [tickProgress, amendedC3Progress, attr231Sentinel, hasd, hst, htbl, hfind]
            by_cases h100 : attr.value > 100
            · have hv : ¬ attr.value = -1 := by omega
              simp [h100, hv]
            · by_cases hv : attr.value = -1
              · simp [h100, hv]
              · simp [h100, hv]
  · intro hsent
    cases hasd : info.ataSmartData with
    | none => simpa [tickProgress, hasd] using hle
    | some asd =>
      cases hst : asd.selfTest with
      | none => simpa [tickProgress, hasd, hst] using hle
      | some st => simpa [tickProgress, hasd, hst, hsent] using hle
  · cases hasd : info.ataSmartData with
    | none => simpa [tickProgress, hasd] using hb
    | some asd =>
      cases hst : asd.selfTest with
      | none => simpa [tickProgress, hasd, hst] using hb
      | some st =>
        by_cases hsent : attr231Sentinel info = -1
        · simpa [tickProgress, hasd, hst, hsent] using hb
        · simp only [tickProgress, hasd, hst]
          rw [if_neg hsent]
          exact attr231Sentinel_le_100 info

/-- Non-terminal observation with an ATA self-test block but no attribute
table (witness input for the amended C3). -/
def c3wInfo : SMARTInfo :=
  { device := ⟨"/dev/sda", "sat"⟩, rotationRate := none, diskType := ""
    ataSmartData := some
      { selfTest := some
          { status := some ⟨249, "in progress", none⟩, pollingMinutes := none }
        capabilities := none, table := none }
    hasNvmeSmartHealth := false, hasNvmeControllerCapabilities := false
    smartctl := none }

/-- C3 witness: without the attribute source, a tick at 114 of 120 expected
seconds reads 95, within the clamp. -/
theorem claim_C3_progress_amended_witness :
    attr231Sentinel c3wInfo = -1 ∧ tickProgress c3wInfo 114 2 ≤ 95 := by
  exact ⟨by decide, (claim_C3_progress_amended c3wInfo 114 2).2.1 (by decide)⟩

/-! ### C1: single retry on the bridge signature -/

/-- First-invocation output of the C1 counterexample: the bridge-failure
signature together with a non-empty device identity. -/
def c1xInfo : SMARTInfo :=
  { device := ⟨"/dev/sda", "scsi"⟩, rotationRate := none, diskType := ""
    ataSmartData := none, hasNvmeSmartHealth := false
    hasNvmeControllerCapabilities := false
    smartctl := some ⟨[⟨"Unknown USB bridge [0x048d:0x1234 (0x200)]", "error"⟩], 1⟩ }

/-- Commander of the C1 counterexample: the first invocation fails with the
bridge-signature output above, the retry fails with empty output. -/
def c1xExec : List String → CmdResult := fun a =>
  if a = noCacheArgs "/dev/sda" then ⟨RawOutput.valid c1xInfo, true⟩
  else ⟨RawOutput.empty, true⟩

/-- C1 counterexample: with no cached type, a first invocation failing with
the bridge signature, and a retry that produces no output at all, the call
issues exactly two invocations but returns *no* error — the fall-through
returns the first output because its device identity is non-empty — so "if
the retry also fails ... the call returns a not-supported error" fails. -/
theorem claim_C1_counterexample :
    lookupDT [] "/dev/sda" = none
    ∧ c1xExec (noCacheArgs "/dev/sda") = ⟨RawOutput.valid c1xInfo, true⟩
    ∧ isUnknownUSBBridge c1xInfo = true
    ∧ resolveRetryType [] c1xInfo = "sat"
    ∧ c1xExec (typedArgs "sat" "/dev/sda") = ⟨RawOutput.empty, true⟩
    ∧ (getSMARTInfo c1xExec [] "/dev/sda").trace.length = 2
    ∧ (getSMARTInfo c1xExec [] "/dev/sda").error = none
    ∧ (getSMARTInfo c1xExec [] "/dev/sda").error ≠ some GetError.notSupported
    ∧ (getSMARTInfo c1xExec [] "/dev/sda").cache = [] := by
  refine ⟨rfl, by decide, by decide, by decide, by decide, by decide, by decide,
    by decide, by decide⟩

/-- C1 (amended): for a device path with no cached type whose first
invocation fails with parseable output carrying the bridge signature,
exactly one retry is issued — the trace is exactly the two invocations.
If the retry fails to produce a non-empty device identity *and the first
output's own device identity is empty*, the call returns the "SMART Not
Supported" error and the cache is unchanged, so a later call may retry
again. -/
theorem claim_C1_retry_amended (exec : List String → CmdResult) (cache : DTCache)
    (path : String) (info : SMARTInfo)
    (hc : lookupDT cache path = none)
    (h1 : exec (noCacheArgs path) = ⟨RawOutput.valid info, true⟩)
    (hb : isUnknownUSBBridge info = true) :
    (getSMARTInfo exec cache path).trace
        = [noCacheArgs path, typedArgs (resolveRetryType cache info) path]
    ∧ ((∀ rinfo, (exec (typedArgs (resolveRetryType cache info) path)).output
          = RawOutput.valid rinfo → rinfo.device.name = "") →
        info.device.name = "" →
        (getSMARTInfo exec cache path).error = some GetError.notSupported
        ∧ (getSMARTInfo exec cache path).cache = cache) := by
  have hmain : getSMARTInfo exec cache path =
      (let dt := resolveRetryType cache info
       let rargs := typedArgs dt path
       let r2 := exec rargs
       if r2.err = false ∨ r2.output ≠ RawOutput.empty then
         match r2.output with
         | RawOutput.valid rinfo =>
           if rinfo.device.name ≠ "" then
             { info := some (withDiskType rinfo), error := none,
               cache := (path, dt) :: cache, trace := [noCacheArgs path, rargs] }
           else getFallback info cache [noCacheArgs path, rargs]
         | _ => getFallback info cache [noCacheArgs path, rargs]
       else getFallback info cache [noCacheArgs path, rargs]) := by
    unfold getSMARTInfo
    simp only [hc, h1, hb, and_self, if_true, true_and]
  rw [hmain]
  simp only []
  rcases hro : (exec (typedArgs (resolveRetryType cache info) path)).output with _ | _ | rinfo
  · -- empty retry output
    rcases he : (exec (typedArgs (resolveRetryType cache info) path)).err with _ | _
    · simp only [hro, he]
      constructor
      · simp [getFallback]
        split <;> rfl
      · intro _ hname
        simp [getFallback, hname]
    · simp only [hro, he]
      constructor
      · simp [getFallback]
        split <;> rfl
      · intro _ hname
        simp [getFallback, hname]
  · -- invalid retry output
    simp only [hro]
    constructor
    · simp [getFallback]
      split <;> rfl
    · intro _ hname
      simp [getFallback, hname]
  · -- parseable retry output: its device name must be empty by hypothesis
    simp only [hro]
    constructor
    · by_cases hn : rinfo.device.name = ""
      · simp only [hn]
        simp [getFallback]
        split <;> rfl
      · simp [hn]
    · intro hfail hname
      have hn : rinfo.device.name = "" := hfail rinfo rfl
      simp only [hn]
      simp [getFallback, hname]

/-- First-invocation output of the C1 witness: the bridge signature and an
empty device identity. -/
def c1wInfo : SMARTInfo :=
  { device := ⟨"", ""⟩, rotationRate := none, diskType := ""
    ataSmartData := none, hasNvmeSmartHealth := false
    hasNvmeControllerCapabilities := false
    smartctl := some ⟨[⟨"/dev/usb0: Unknown USB bridge [0x048d:0x1234 (0x200)]", "error"⟩], 1⟩ }

/-- Commander of the C1 witness: both the first invocation and the retry
fail with the same identity-less output. -/
def c1wExec : List String → CmdResult := fun _ => ⟨RawOutput.valid c1wInfo, true⟩

/-- C1 witness: both attempts fail with the bridge signature and no device
identity; the call issues exactly the two invocations, returns the
not-supported error, and caches nothing. -/
theorem claim_C1_retry_amended_witness :
    (getSMARTInfo c1wExec [] "/dev/usb0").trace
        = [noCacheArgs "/dev/usb0", typedArgs "sat" "/dev/usb0"]
    ∧ (getSMARTInfo c1wExec [] "/dev/usb0").error = some GetError.notSupported
    ∧ (getSMARTInfo c1wExec [] "/dev/usb0").cache = [] := by
  have h := claim_C1_retry_amended c1wExec [] "/dev/usb0" c1wInfo rfl (by decide) (by decide)
  have hsat : resolveRetryType [] c1wInfo = "sat" := by decide
  have h2 := h.2
    (by
      intro rinfo hr
      have hr2 : RawOutput.valid c1wInfo = RawOutput.valid rinfo := hr
      injection hr2 with hinj
      rw [← hinj]
      rfl)
    (by decide)
  exact ⟨by rw [← hsat]; exact h.1, h2.1, h2.2⟩

/-! ### C2: cache write discipline -/

/-- The fall-through never touches the cache. -/
@[simp] theorem getFallback_cache (info : SMARTInfo) (cache : DTCache)
    (tr : List (List String)) : (getFallback info cache tr).cache = cache := by
  unfold getFallback
  split <;> rfl

/-- The fall-through reports the trace it is given. -/
@[simp] theorem getFallback_trace (info : SMARTInfo) (cache : DTCache)
    (tr : List (List String)) : (getFallback info cache tr).trace = tr := by
  unfold getFallback
  split <;> rfl

/-- Cache lookup after a single insertion. -/
theorem lookupDT_cons (p d k : String) (cache : DTCache) :
    lookupDT ((p, d) :: cache) k = if p == k then some d else lookupDT cache k := by
  simp only [lookupDT, List.find?]
  by_cases h : p == k
  · simp [h]
  · simp [h]

/-- Exhaustive outcome of one `GetSMARTInfo` call with respect to the
cache: either the cache is returned unchanged, or the path was uncached,
the first invocation failed with parseable bridge-signature output, the
retry produced a parseable output with a non-empty device identity, and the
result is exactly the successful retry outcome with the new entry
prepended. -/
theorem getSMARTInfo_master (exec : List String → CmdResult) (cache : DTCache)
    (path : String) :
    (getSMARTInfo exec cache path).cache = cache
    ∨ (lookupDT cache path = none ∧
       ∃ info rinfo,
         exec (noCacheArgs path) = ⟨RawOutput.valid info, true⟩
         ∧ isUnknownUSBBridge info = true
         ∧ (exec (typedArgs (resolveRetryType cache info) path)).output
             = RawOutput.valid rinfo
         ∧ rinfo.device.name ≠ ""
         ∧ getSMARTInfo exec cache path =
             { info := some (withDiskType rinfo), error := none,
               cache := (path, resolveRetryType cache info) :: cache,
               trace := [noCacheArgs path,
                         typedArgs (resolveRetryType cache info) path] }) := by
  cases hc : lookupDT cache path with
  | some t =>
    left
    unfold getSMARTInfo
    simp only [hc]
    rcases h1 : exec (typedArgs t path) with ⟨out1, err1⟩
    cases err1
    · cases out1 <;> simp [h1]
    · cases out1 <;> simp [h1]
  | none =>
    rcases h1 : exec (noCacheArgs path) with ⟨out1, err1⟩
    cases err1 with
    | false =>
      left
      unfold getSMARTInfo
      simp only [hc]
      cases out1 <;> simp [h1]
    | true =>
      cases out1 with
      | empty =>
        left
        unfold getSMARTInfo
        simp only [hc]
        simp [h1]
      | invalid =>
        left
        unfold getSMARTInfo
        simp only [hc]
        simp [h1]
      | valid info =>
        by_cases hbr : isUnknownUSBBridge info = true
        · rcases h2 : exec (typedArgs (resolveRetryType cache info) path) with ⟨out2, err2⟩
          cases out2 with
          | empty =>
            left
            unfold getSMARTInfo
            simp only [hc]
            cases err2 <;> simp [h1, h2, hbr]
          | invalid =>
            left
            unfold getSMARTInfo
            simp only [hc]
            cases err2 <;> simp [h1, h2, hbr]
          | valid rinfo =>
            by_cases hn : rinfo.device.name = ""
            · left
              unfold getSMARTInfo
              simp only [hc]
              cases err2 <;> simp [h1, h2, hbr, hn]
            · right
              refine ⟨rfl, info, rinfo, rfl, hbr, by rw [h2], hn, ?_⟩
              unfold getSMARTInfo
              simp only [hc]
              cases err2 <;> simp [h1, h2, hbr, hn]
        · left
          unfold getSMARTInfo
          simp only [hc]
          simp [h1, hbr]

/-- C2: (i) an entry of the device-type cache, once written, is never
removed or overwritten — every association visible before a `GetSMARTInfo`
call is unchanged after it; (ii) the cache is written only by a call whose
retried invocation succeeded: if the cache changed, the path was uncached,
the new state is exactly the old one plus the entry for this path, the
trace shows the two invocations, the retry's output parsed with a non-empty
device identity, and the call returned that output without error; (iii) a
call for a path with a cached type prepends `-d <type>` to the single
invocation it issues and leaves the cache untouched — the bridge
extraction/fallback logic and its retry are never re-entered. -/
theorem claim_C2_cache_invariant (exec : List String → CmdResult) (cache : DTCache)
    (path : String) :
    (∀ k v, lookupDT cache k = some v →
        lookupDT (getSMARTInfo exec cache path).cache k = some v)
    ∧ ((getSMARTInfo exec cache path).cache ≠ cache →
        lookupDT cache path = none
        ∧ ∃ dt rinfo,
            (getSMARTInfo exec cache path).cache = (path, dt) :: cache
            ∧ (getSMARTInfo exec cache path).trace = [noCacheArgs path, typedArgs dt path]
            ∧ (exec (typedArgs dt path)).output = RawOutput.valid rinfo
            ∧ rinfo.device.name ≠ ""
            ∧ (getSMARTInfo exec cache path).error = none
            ∧ (getSMARTInfo exec cache path).info = some (withDiskType rinfo))
    ∧ (∀ t, lookupDT cache path = some t →
        (getSMARTInfo exec cache path).trace = [typedArgs t path]
        ∧ (getSMARTInfo exec cache path).cache = cache) := by
  refine ⟨?_, ?_, ?_⟩
  · intro k v hkv
    rcases getSMARTInfo_master exec cache path with hsame | ⟨hnone, info, rinfo, _, _, _, _, heq⟩
    · rw [hsame]; exact hkv
    · rw [heq]
      simp only [lookupDT_cons]
      by_cases hpk : path == k
      · have : path = k := by simpa using hpk
        rw [← this] at hkv
        rw [hnone] at hkv
        cases hkv
      · simp [hpk, hkv]
  · intro hne
    rcases getSMARTInfo_master exec cache path with hsame | ⟨hnone, info, rinfo, _, _, h3, h4, heq⟩
    · exact absurd hsame hne
    · refine ⟨hnone, resolveRetryType cache info, rinfo, ?_, ?_, h3, h4, ?_, ?_⟩ <;>
        rw [heq]
  · intro t ht
    unfold getSMARTInfo
    simp only [ht]
    rcases h1 : exec (typedArgs t path) with ⟨out1, err1⟩
    cases err1
    · cases out1 <;> simp [h1]
    · cases out1 <;> simp [h1]

/-- Commander for the C2 witness: every invocation succeeds with a plain
parseable output. -/
def c2wExec : List String → CmdResult := fun _ =>
  ⟨RawOutput.valid
    { device := ⟨"/dev/sdb", "sat"⟩, rotationRate := some 0, diskType := ""
      ataSmartData := none, hasNvmeSmartHealth := false
      hasNvmeControllerCapabilities := false, smartctl := none }, false⟩

/-- C2 witness: with `sat` cached for `/dev/sdb`, a call issues exactly the
one `-d sat` invocation, leaves the cache unchanged, and the pre-existing
association is still visible afterwards. -/
theorem claim_C2_cache_invariant_witness :
    (getSMARTInfo c2wExec [("/dev/sdb", "sat")] "/dev/sdb").trace
        = [typedArgs "sat" "/dev/sdb"]
    ∧ (getSMARTInfo c2wExec [("/dev/sdb", "sat")] "/dev/sdb").cache
        = [("/dev/sdb", "sat")]
    ∧ lookupDT (getSMARTInfo c2wExec [("/dev/sdb", "sat")] "/dev/sdb").cache "/dev/sdb"
        = some "sat" := by
  have h := claim_C2_cache_invariant c2wExec [("/dev/sdb", "sat")] "/dev/sdb"
  have h3 := h.2.2 "sat" (by decide)
  exact ⟨h3.1, h3.2, h.1 "/dev/sdb" "sat" (by decide)⟩

/-! ### C4: callback progress across a run -/

/-- A terminal-status message is one of the three normalized outcomes. -/
theorem terminalMsg_cases (info : SMARTInfo) (m : String) (h : terminalMsg info = some m) :
    m = "Self-test completed" ∨ m = "Self-test aborted" ∨ m = "Self-test interrupted" := by
  unfold terminalMsg at h
  cases hasd : info.ataSmartData with
  | none => simp only [hasd] at h; cases h
  | some asd =>
    simp only [hasd] at h
    cases hst : asd.selfTest with
    | none => simp only [hst] at h; cases h
    | some st =>
      simp only [hst] at h
      cases hs : st.status with
      | none => simp only [hs] at h; cases h
      | some s =>
        simp only [hs] at h
        split at h
        · injection h with h2; exact Or.inl h2.symm
        · split at h
          · injection h with h2; exact Or.inr (Or.inl h2.symm)
          · split at h
            · injection h with h2; exact Or.inr (Or.inr h2.symm)
            · cases h

/-- When a poll loop ends on a terminal status, its last callback is
`(100, m)` with `m` one of the three normalized messages. -/
theorem pollSelfTest_terminal (em : Nat) :
    ∀ (ticks : List TickObs) (e : Nat) (m : String),
    (pollSelfTest em ticks e).2.1 = RunExit.terminal m →
    (pollSelfTest em ticks e).1.getLast? = some (100, m)
    ∧ (m = "Self-test completed" ∨ m = "Self-test aborted" ∨ m = "Self-test interrupted") := by
  intro ticks
  induction ticks with
  | nil => intro e m h; simp [pollSelfTest] at h
  | cons t rest ih =>
    intro e m h
    cases t with
    | cancel => simp [pollSelfTest] at h
    | errq =>
      simp only [pollSelfTest] at h ⊢
      exact ih (e + 5) m h
    | ok info =>
      simp only [pollSelfTest] at h ⊢
      cases hterm : terminalMsg info with
      | some m0 =>
        simp only [hterm] at h ⊢
        have hm : m0 = m := by injection h
        subst hm
        exact ⟨rfl, terminalMsg_cases info m0 hterm⟩
      | none =>
        simp only [hterm] at h ⊢
        by_cases htime : e + 5 > em * 120
        · simp only [htime, if_true] at h
          cases h
        · simp only [htime, if_false] at h ⊢
          have hr := ih (e + 5) m h
          refine ⟨?_, hr.2⟩
          cases hl : (pollSelfTest em rest (e + 5)).1 with
          | nil => rw [hl] at hr; simp at hr
          | cons a as =>
            rw [hl] at hr
            rw [List.getLast?_cons_cons]
            exact hr.1

/-- A tick whose attribute source ended at the `-1` sentinel reports the
elapsed-time heuristic. -/
theorem tickProgress_of_sentinel (info : SMARTInfo) (e em : Nat)
    (h : attr231Sentinel info = -1) :
    tickProgress info e em = heuristicProgress e em := by
  cases hasd : info.ataSmartData with
  | none => simp [tickProgress, hasd]
  | some asd =>
    cases hst : asd.selfTest with
    | none => simp [tickProgress, hasd, hst]
    | some st => simp [tickProgress, hasd, hst, h]

/-- The elapsed-time heuristic is monotone in elapsed time. -/
theorem heuristicProgress_mono (em : Nat) {a b : Nat} (h : a ≤ b) :
    heuristicProgress a em ≤ heuristicProgress b em := by
  unfold heuristicProgress
  have hd : a * 100 / (em * 60) ≤ b * 100 / (em * 60) :=
    Nat.div_le_div_right (Nat.mul_le_mul_right _ h)
  by_cases h1 : a * 100 / (em * 60) > 95 <;> by_cases h2 : b * 100 / (em * 60) > 95 <;>
    simp only [h1, h2, if_true, if_false] <;> exact Int.ofNat_le.mpr (by omega)

/-- The elapsed-time heuristic is non-negative. -/
theorem heuristicProgress_nonneg (a em : Nat) : 0 ≤ heuristicProgress a em := by
  unfold heuristicProgress
  exact Int.ofNat_nonneg _

/-- Over ticks whose attribute source is absent (sentinel `-1`
throughout), the poll loop's callback progress values form a non-decreasing
chain, all bounded below by the heuristic at the first tick. -/
theorem pollSelfTest_mono (em : Nat) :
    ∀ (ticks : List TickObs) (e : Nat),
    (∀ info, TickObs.ok info ∈ ticks → attr231Sentinel info = -1) →
    List.Chain' (fun a b => a ≤ b) ((pollSelfTest em ticks e).1.map Prod.fst)
    ∧ (∀ q ∈ (pollSelfTest em ticks e).1.map Prod.fst,
        heuristicProgress (e + 5) em ≤ q) := by
  intro ticks
  induction ticks with
  | nil => intro e _; simp [pollSelfTest]
  | cons t rest ih =>
    intro e hno
    cases t with
    | cancel => simp [pollSelfTest]
    | errq =>
      have hno2 : ∀ info, TickObs.ok info ∈ rest → attr231Sentinel info = -1 :=
        fun i hi => hno i (List.mem_cons_of_mem _ hi)
      have h := ih (e + 5) hno2
      simp only [pollSelfTest]
      exact ⟨h.1, fun q hq =>
        le_trans (heuristicProgress_mono em (by omega)) (h.2 q hq)⟩
    | ok info =>
      have hs : attr231Sentinel info = -1 := hno info (List.mem_cons_self _ _)
      have htp : tickProgress info (e + 5) em = heuristicProgress (e + 5) em :=
        tickProgress_of_sentinel info (e + 5) em hs
      simp only [pollSelfTest]
      cases hterm : terminalMsg info with
      | some m =>
        simp only [hterm]
        constructor
        · simp
        · intro q hq
          simp only [List.map_cons, List.map_nil, List.mem_singleton] at hq
          subst hq
          exact le_trans (heuristicProgress_le_95 (e + 5) em) (by norm_num)
      | none =>
        simp only [hterm]
        by_cases htime : e + 5 > em * 120
        · simp only [htime, if_true]
          constructor
          · simp
          · intro q hq
            simp only [List.map_cons, List.map_nil, List.mem_singleton] at hq
            subst hq
            rw [htp]
        · simp only [htime, if_false]
          have hno2 : ∀ i, TickObs.ok i ∈ rest → attr231Sentinel i = -1 :=
            fun i hi => hno i (List.mem_cons_of_mem _ hi)
          have h := ih (e + 5) hno2
          constructor
          · simp only [List.map_cons]
            rw [List.chain'_cons']
            refine ⟨?_, h.1⟩
            intro y hy
            have hmem : y ∈ (pollSelfTest em rest (e + 5)).1.map Prod.fst :=
              List.mem_of_mem_head? hy
            rw [htp]
            exact le_trans (heuristicProgress_mono em (by omega)) (h.2 y hmem)
          · intro q hq
            simp only [List.map_cons, List.mem_cons] at hq
            rcases hq with hq | hq
            · rw [hq, htp]
            · exact le_trans (heuristicProgress_mono em (by omega)) (h.2 q hq)

/-- Tick observation with attribute 231 at value 90 (counterexample input
for C4). -/
def c4xAttrInfo : SMARTInfo :=
  { device := ⟨"/dev/sda", "sat"⟩, rotationRate := none, diskType := ""
    ataSmartData := some
      { selfTest := some
          { status := some ⟨249, "in progress", none⟩, pollingMinutes := none }
        capabilities := none
        table := some [⟨231, "Self-test execution status", 90, 0, 0, ⟨90, "90"⟩⟩] }
    hasNvmeSmartHealth := false, hasNvmeControllerCapabilities := false
    smartctl := none }

/-- Tick observation with no ATA data (counterexample input for C4). -/
def c4xPlainInfo : SMARTInfo :=
  { device := ⟨"/dev/sda", "sat"⟩, rotationRate := none, diskType := ""
    ataSmartData := none, hasNvmeSmartHealth := false
    hasNvmeControllerCapabilities := false, smartctl := none }

/-- Terminal tick observation (counterexample input for C4). -/
def c4xDoneInfo : SMARTInfo :=
  { device := ⟨"/dev/sda", "sat"⟩, rotationRate := none, diskType := ""
    ataSmartData := some
      { selfTest := some
          { status := some ⟨0, "Completed without error", none⟩, pollingMinutes := none }
        capabilities := none, table := none }
    hasNvmeSmartHealth := false, hasNvmeControllerCapabilities := false
    smartctl := none }

/-- The full counterexample run for C4: a short test observed with the 231
attribute at 90, then without attribute table, then completed. -/
def c4xInput : RunInput :=
  { testType := "short", caps := some ⟨["short", "long"], []⟩, startErr := false
    ticks := [TickObs.ok c4xAttrInfo, TickObs.ok c4xPlainInfo, TickObs.ok c4xDoneInfo] }

/-- C4 counterexample: a run whose progress source switches from the 231
attribute (90) to the elapsed-time heuristic (8) produces the callback
progress sequence 0, 90, 8, 100 — not non-decreasing — even though the run
ends on a terminal status with a final 100. -/
theorem claim_C4_counterexample :
    (runSelfTestWithProgress "/dev/sda" c4xInput).exit
        = RunExit.terminal "Self-test completed"
    ∧ (runSelfTestWithProgress "/dev/sda" c4xInput).callbacks.map Prod.fst
        = [0, 90, 8, 100]
    ∧ ¬ List.Chain' (fun a b => a ≤ b)
        ((runSelfTestWithProgress "/dev/sda" c4xInput).callbacks.map Prod.fst) := by
  refine ⟨by decide, by decide, ?_⟩
  intro h
  have h2 : ((runSelfTestWithProgress "/dev/sda" c4xInput).callbacks.map Prod.fst)
      = [0, 90, 8, 100] := by decide
  rw [h2] at h
  simp only [List.chain'_cons, List.chain'_singleton, and_true] at h
  omega

/-- C4 (amended): across one full run, when the loop ends because a
terminal status is observed the final callback is invoked with progress
exactly 100 and a normalized message naming the outcome; the full callback
progress sequence is non-decreasing whenever the progress source does not
switch — i.e. when the 231-attribute source is absent (sentinel `-1`) on
every successful tick, so all ticks use the elapsed-time heuristic.  (With
the attribute source present, progress follows the attribute values, which
the device does not guarantee to be monotone.) -/
theorem claim_C4_progress_amended (path : String) (inp : RunInput) :
    (∀ m, (runSelfTestWithProgress path inp).exit = RunExit.terminal m →
        (runSelfTestWithProgress path inp).callbacks.getLast? = some (100, m)
        ∧ (m = "Self-test completed" ∨ m = "Self-test aborted"
            ∨ m = "Self-test interrupted"))
    ∧ ((∀ info, TickObs.ok info ∈ inp.ticks → attr231Sentinel info = -1) →
        List.Chain' (fun a b => a ≤ b)
          ((runSelfTestWithProgress path inp).callbacks.map Prod.fst)) := by
  by_cases hv : validSelfTestTypes.contains inp.testType
  · cases hcaps : inp.caps with
    | none =>
      have hrw : runSelfTestWithProgress path inp
          = { callbacks := [], exit := RunExit.capsFailed, cmds := [capsCmd path] } := by
        have hv2 : inp.testType ∈ validSelfTestTypes := by simpa using hv
        simp [runSelfTestWithProgress, hv2, hcaps]
      rw [hrw]
      exact ⟨fun m h => (nomatch h), fun _ => by simp⟩
    | some sti =>
      by_cases he : sti.available = []
      · have hrw : runSelfTestWithProgress path inp
            = { callbacks := [], exit := RunExit.notSupported, cmds := [capsCmd path] } := by
          have hv2 : inp.testType ∈ validSelfTestTypes := by simpa using hv
          simp [runSelfTestWithProgress, hv2, hcaps, he]
        rw [hrw]
        exact ⟨fun m h => (nomatch h), fun _ => by simp⟩
      · by_cases ha : sti.available.contains inp.testType
        · rcases hrs : runSelfTest path inp.testType inp.startErr with ⟨oerr, tr⟩
          cases oerr with
          | some ex =>
            have hrw : runSelfTestWithProgress path inp
                = { callbacks := [], exit := RunExit.startFailed,
                    cmds := capsCmd path :: tr } := by
              have hv2 : inp.testType ∈ validSelfTestTypes := by simpa using hv
              have ha2 : inp.testType ∈ sti.available := by simpa using ha
              simp [runSelfTestWithProgress, hv2, hcaps, he, ha2, hrs]
            rw [hrw]
            exact ⟨fun m h => (nomatch h), fun _ => by simp⟩
          | none =>
            have hrw : runSelfTestWithProgress path inp
                = { callbacks := (0, capFirst inp.testType ++ " self-test started")
                      :: (pollSelfTest (expectedMinutesFor inp.testType sti.durations)
                            inp.ticks 0).1,
                    exit := (pollSelfTest (expectedMinutesFor inp.testType sti.durations)
                            inp.ticks 0).2.1,
                    cmds := capsCmd path :: tr } := by
              have hv2 : inp.testType ∈ validSelfTestTypes := by simpa using hv
              have ha2 : inp.testType ∈ sti.available := by simpa using ha
              simp [runSelfTestWithProgress, hv2, hcaps, he, ha2, hrs]
            rw [hrw]
            constructor
            · intro m h
              simp only [] at h
              have hr := pollSelfTest_terminal
                (expectedMinutesFor inp.testType sti.durations) inp.ticks 0 m h
              refine ⟨?_, hr.2⟩
              cases hl : (pollSelfTest (expectedMinutesFor inp.testType sti.durations)
                  inp.ticks 0).1 with
              | nil => rw [hl] at hr; simp at hr
              | cons a as =>
                rw [hl] at hr
                simp only [hl, List.getLast?_cons_cons]
                exact hr.1
            · intro hno
              have h := pollSelfTest_mono
                (expectedMinutesFor inp.testType sti.durations) inp.ticks 0 hno
              simp only [List.map_cons]
              rw [List.chain'_cons']
              refine ⟨?_, h.1⟩
              intro y hy
              have hmem := List.mem_of_mem_head? hy
              exact le_trans
                (heuristicProgress_nonneg 5 (expectedMinutesFor inp.testType sti.durations))
                (h.2 y hmem)
        · have hrw : runSelfTestWithProgress path inp
              = { callbacks := [], exit := RunExit.notAvailable,
                  cmds := [capsCmd path] } := by
            have hv2 : inp.testType ∈ validSelfTestTypes := by simpa using hv
            have ha2 : inp.testType ∉ sti.available := by simpa using ha
            simp [runSelfTestWithProgress, hv2, hcaps, he, ha2]
          rw [hrw]
          exact ⟨fun m h => (nomatch h), fun _ => by simp⟩
  · have hrw : runSelfTestWithProgress path inp
        = { callbacks := [], exit := RunExit.invalidType, cmds := [] } := by
      have hv2 : inp.testType ∉ validSelfTestTypes := by simpa using hv
      simp [runSelfTestWithProgress, hv2]
    rw [hrw]
    exact ⟨fun m h => (nomatch h), fun _ => by simp⟩

/-- Terminal tick observation for the C4 witness run. -/
def c4wDoneInfo : SMARTInfo :=
  { device := ⟨"/dev/sda", "sat"⟩, rotationRate := none, diskType := ""
    ataSmartData := some
      { selfTest := some
          { status := some ⟨0, "Completed without error", none⟩, pollingMinutes := none }
        capabilities := none, table := none }
    hasNvmeSmartHealth := false, hasNvmeControllerCapabilities := false
    smartctl := none }

/-- The C4 witness run: heuristic-only ticks ending on a terminal status. -/
def c4wInput : RunInput :=
  { testType := "short", caps := some ⟨["short", "long"], []⟩, startErr := false
    ticks := [TickObs.errq, TickObs.ok c4wDoneInfo] }

/-- C4 witness: a heuristic-only run ends with the final callback
`(100, "Self-test completed")` and a non-decreasing progress sequence. -/
theorem claim_C4_progress_amended_witness :
    (runSelfTestWithProgress "/dev/sda" c4wInput).exit
        = RunExit.terminal "Self-test completed"
    ∧ (runSelfTestWithProgress "/dev/sda" c4wInput).callbacks.getLast?
        = some (100, "Self-test completed")
    ∧ List.Chain' (fun a b => a ≤ b)
        ((runSelfTestWithProgress "/dev/sda" c4wInput).callbacks.map Prod.fst) := by
  have hexit : (runSelfTestWithProgress "/dev/sda" c4wInput).exit
      = RunExit.terminal "Self-test completed" := by decide
  have h := claim_C4_progress_amended "/dev/sda" c4wInput
  refine ⟨hexit, (h.1 "Self-test completed" hexit).1, h.2 ?_⟩
  intro info hmem
  simp only [c4wInput, List.mem_cons, List.not_mem_nil, or_false] at hmem
  rcases hmem with hmem | hmem
  · cases hmem
  · have : info = c4wDoneInfo := by injection hmem
    rw [this]
    decide

/-! ### C7: knowledge-base loader -/

/-- Lowercase hexadecimal digit. -/
def isLowerHexDigit (c : Char) : Bool :=
  ('0' ≤ c && c ≤ '9') || ('a' ≤ c && c ≤ 'f')

/-- Is the key literally `usb:` followed by a lowercase `0xVVVV:0xPPPP`
vendor:product hex pair, as claim C7 states every produced key is? -/
def isLowerHexPairKey (k : String) : Bool :=
  match k.data with
  | 'u' :: 's' :: 'b' :: ':' :: '0' :: 'x' :: a :: b :: c :: d
      :: ':' :: '0' :: 'x' :: e :: f :: g :: h :: [] =>
    [a, b, c, d, e, f, g, h].all isLowerHexDigit
  | _ => false

/-- No ASCII uppercase letter occurs in the character list. -/
def allNoUpper (l : List Char) : Bool :=
  l.all (fun c => decide (c.toNat < 65 ∨ 90 < c.toNat))

/-- No ASCII uppercase letter occurs in the string. -/
def noUpperAscii (s : String) : Bool := allNoUpper s.data

/-- `Char.ofNat` of a valid code point reads back as the same `Nat`. -/
theorem toNat_ofNat_valid (n : Nat) (h : n.isValidChar) : (Char.ofNat n).toNat = n := by
  simp [Char.ofNat, h, Char.ofNatAux, Char.toNat, UInt32.toNat]

/-- The ASCII lowercase map never produces an ASCII uppercase letter. -/
theorem charLower_not_upper (c : Char) :
    (charLower c).toNat < 65 ∨ 90 < (charLower c).toNat := by
  unfold charLower
  by_cases h : 65 ≤ c.toNat ∧ c.toNat ≤ 90
  · rw [if_pos h]
    rw [toNat_ofNat_valid (c.toNat + 32) (Or.inl (by omega))]
    omega
  · rw [if_neg h]
    omega

/-- Lowercased strings carry no ASCII uppercase letter. -/
theorem noUpper_toLowerStr (s : String) : noUpperAscii (toLowerStr s) = true := by
  have hdata : (toLowerStr s).data = s.data.map charLower := rfl
  simp only [noUpperAscii, allNoUpper, hdata, List.all_map]
  apply List.all_eq_true.mpr
  intro c _
  exact decide_eq_true (charLower_not_upper c)

/-- A list is a Boolean prefix of itself followed by anything. -/
theorem isPrefixOf_append_self (l m : List Char) : l.isPrefixOf (l ++ m) = true := by
  induction l with
  | nil => cases m <;> rfl
  | cons a t ih => simp [List.isPrefixOf, ih]

/-- Shape of every key the loader inserts: the `usb:` marker followed by a
lowercased identifier. -/
theorem key_shape_insert (id : String) :
    "usb:".data.isPrefixOf ("usb:" ++ toLowerStr id).data = true
    ∧ noUpperAscii ("usb:" ++ toLowerStr id) = true := by
  have hdata : ("usb:" ++ toLowerStr id).data = "usb:".data ++ (toLowerStr id).data :=
    String.data_append "usb:" (toLowerStr id)
  constructor
  · rw [hdata]
    exact isPrefixOf_append_self _ _
  · have h2 := noUpper_toLowerStr id
    simp only [noUpperAscii, allNoUpper, hdata, List.all_append]
    simp only [noUpperAscii, allNoUpper] at h2
    rw [h2]
    decide

/-- Members of the loader's insertion fold are either old cache entries or
freshly shaped keys. -/
theorem mem_foldl_insert (dt : String) :
    ∀ (ids : List String) (cache : DTCache) (kv : String × String),
    kv ∈ ids.foldl (fun acc id => ("usb:" ++ toLowerStr id, dt) :: acc) cache →
    kv ∈ cache ∨ ∃ id, kv = ("usb:" ++ toLowerStr id, dt) := by
  intro ids
  induction ids with
  | nil => intro cache kv h; exact Or.inl h
  | cons i rest ih =>
    intro cache kv h
    simp only [List.foldl_cons] at h
    rcases ih _ kv h with hmem | hid
    · rcases List.mem_cons.mp hmem with he | hmem2
      · exact Or.inr ⟨i, he⟩
      · exact Or.inl hmem2
    · exact Or.inr hid

/-- `processEntry` only adds `usb:`-prefixed, uppercase-free keys. -/
theorem processEntry_shape (fields : List String) (cache : DTCache)
    (kv : String × String) (h : kv ∈ processEntry fields cache) :
    kv ∈ cache
    ∨ ("usb:".data.isPrefixOf kv.1.data = true ∧ noUpperAscii kv.1 = true) := by
  simp only [processEntry] at h
  split at h
  · split at h
    · split at h
      · rcases mem_foldl_insert _ _ _ kv h with hmem | ⟨id, hid⟩
        · exact Or.inl hmem
        · rw [hid]
          exact Or.inr (key_shape_insert id)
      · exact Or.inl h
    · exact Or.inl h
  · exact Or.inl h

/-- Every key the line loop adds over any cache is `usb:`-prefixed and free
of ASCII uppercase letters. -/
theorem loadLoop_shape :
    ∀ (lines : List (List Char)) (inUSB : Bool) (fields : List String)
      (cache : DTCache) (kv : String × String),
    kv ∈ loadLoop lines inUSB fields cache →
    kv ∈ cache
    ∨ ("usb:".data.isPrefixOf kv.1.data = true ∧ noUpperAscii kv.1 = true) := by
  intro lines
  induction lines with
  | nil => intro inUSB fields cache kv h; exact Or.inl h
  | cons line0 rest ih =>
    intro inUSB fields cache kv h
    simp only [loadLoop] at h
    repeat' split at h
    all_goals first
      | exact (ih _ _ _ kv h).elim Or.inl Or.inr
      | exact (ih _ _ _ kv h).elim
          (fun hmem => (processEntry_shape _ _ kv hmem).elim Or.inl Or.inr) Or.inr

/-- Counterexample record for C7: a syntactically well-formed USB entry
whose compact alternation `0x05(zz)` expands through the two-byte fallback
into a non-hex product identifier. -/
def c7xText : String :=
  "\x7b \"USB: X\", \"0x1234:0x05(zz)\", \"\", \"\", \"-d sat\" \x7d,"

/-- C7 counterexample: the loader, run on the record above, produces
exactly the key `usb:0x1234:0x05zz` — lowercase, but *not* a vendor:product
hex pair (`z` is not a hex digit) — refuting "every produced key is of the
form usb: followed by a lowercase vendor:product hex pair". -/
theorem claim_C7_counterexample :
    (loadDrivedbAddendum c7xText).map Prod.fst = ["usb:0x1234:0x05zz"]
    ∧ isLowerHexPairKey "usb:0x1234:0x05zz" = false := by
  refine ⟨by decide, by decide⟩

/-- C7 (amended): for every input database text the loader returns a map
(total function — malformed records are skipped, as the record with too few
fields shows); every produced key begins with `usb:` and contains no ASCII
uppercase letter (keys from exact vendor:product matches are hex pairs, but
alternation expansion can emit the record's own non-hex characters); the
compact alternation `0x152d:0x05(7[789]|80)` expands to exactly the four
literal identifiers; and an open-ended wildcard pattern expands to no
identifiers at all. -/
theorem claim_C7_loader_amended (dbText : String) :
    (∀ kv ∈ loadDrivedbAddendum dbText,
        "usb:".data.isPrefixOf kv.1.data = true ∧ noUpperAscii kv.1 = true)
    ∧ extractUSBIDs "0x152d:0x05(7[789]|80)"
        = ["0x152d:0x0577", "0x152d:0x0578", "0x152d:0x0579", "0x152d:0x0580"]
    ∧ extractUSBIDs "0x0480:0x...." = []
    ∧ loadDrivedbAddendum "\x7b \"USB: Y\", \"0x1111:0x2222\" \x7d," = [] := by
  refine ⟨?_, by decide, by decide, by decide⟩
  intro kv hkv
  rcases loadLoop_shape _ _ _ _ kv hkv with hmem | hshape
  · cases hmem
  · exact hshape

/-- C7 witness: the loader's key from the counterexample record is indeed
`usb:`-prefixed and uppercase-free. -/
theorem claim_C7_loader_amended_witness :
    (("usb:0x1234:0x05zz", "sat") : String × String) ∈ loadDrivedbAddendum c7xText
    ∧ "usb:".data.isPrefixOf ("usb:0x1234:0x05zz" : String).data = true
    ∧ noUpperAscii "usb:0x1234:0x05zz" = true := by
  have hm : (("usb:0x1234:0x05zz", "sat") : String × String) ∈ loadDrivedbAddendum c7xText := by
    decide
  have h := (claim_C7_loader_amended c7xText).1 ("usb:0x1234:0x05zz", "sat") hm
  exact ⟨hm, h.1, h.2⟩

end Smart
